import Mathlib

/-!
Shallow embedding of the MCP (Model Control Protocol) layer:
`src/mcp/connector.py`, `src/mcp/server.py` and `src/mcp/client.py`.

Conventions of the embedding:
* JSON-shaped values are modelled by `JValue`; request/response bodies are
  association lists `List (String × JValue)` looked up first-match, like a
  Python dict with unique keys.
* A Python call that may raise is modelled by `PyResult`; an `except` branch
  is a `match` on it.  A function returning `None` on failure is modelled
  with `Option`.
* The network / remote server is an oracle `Net : String → Params →
  Option Resp`; `none` models a transport exception or a non-2xx reply
  (both are caught inside `send_request` and yield `None` in the source).
* Observable transport effects (opening a `requests.Session`, running the
  health probe, performing one HTTP exchange, opening a WebSocket) are
  recorded in an `Event` trace so that claims about "no second transport
  resource" and "no transport exchange" are statable.
-/

namespace MCP

/-- JSON-like values carried in MCP request and response bodies. -/
inductive JValue where
  | null
  | bool (b : Bool)
  | num (n : Int)
  | str (s : String)
  | obj (fields : List (String × JValue))

/-- A parameter bag / JSON object body: key → value, first match wins,
mirroring a Python dict whose keys are unique. -/
abbrev Params := List (String × JValue)

/-- A response body. -/
abbrev Resp := List (String × JValue)

/-- Python `d.get(k)` on a dict, modelled as first-match lookup. -/
def dictGet {α : Type} (d : List (String × α)) (k : String) : Option α :=
  match d with
  | [] => none
  | (k', v) :: rest => if k' = k then some v else dictGet rest k

/-- Outcome of a Python call: normal return or a raised exception with its
message. -/
inductive PyResult (α : Type) where
  | ok (a : α)
  | exn (msg : String)

/-- The remote endpoint as an oracle: `none` models a transport exception or
a non-2xx status (both caught inside `send_request` in the source). -/
abbrev Net := String → Params → Option Resp

/-- Observable transport effects of connector operations. -/
inductive Event where
  | openSession                 -- `requests.Session()` constructed
  | probe                       -- `self.health_check()` invoked by `connect`
  | exchange (method : String)  -- one HTTP request/reply exchange performed
  | wsOpenSocket                -- `websocket.WebSocketApp(...)` constructed
  | wsSendFrame                 -- a frame written to the socket
  deriving DecidableEq

/-- `connector.py` line 95: `response is not None and
response.get('status') == 'healthy'`.  Python `==` between `'healthy'` and a
JSON value is true exactly for the string `"healthy"`. -/
def resp_is_healthy : Option Resp → Bool
  | none => false
  | some r =>
    match dictGet r "status" with
    | some (JValue.str s) => s = "healthy"
    | _ => false

/-- Outcome of one `send_request` call as seen by `health_check`: the call
may itself raise, or return a response / `None`. -/
inductive SendOutcome where
  | raised (msg : String)
  | ok (r : Option Resp)

/-- `MCPConnector.health_check` (connector.py lines 87-98), abstract over the
subclass `send_request`: calls `send_request('health_check', {})`; any
exception is caught and yields `false`; otherwise true iff the response is
non-`None` with `status == 'healthy'`. -/
def health_check (send : String → Params → SendOutcome) : Bool :=
  match send "health_check" [] with
  | SendOutcome.raised _ => false
  | SendOutcome.ok r => resp_is_healthy r

/-! ## HTTP connector (connector.py lines 101-158) -/

/-- Mutable state of an `HTTPConnector`: `self._is_connected` and whether
`self._session` is set. -/
structure HTTPState where
  is_connected : Bool
  has_session : Bool
  deriving DecidableEq

/-- `HTTPConnector.send_request` (lines 138-158): guard
`if not self._session or not self._is_connected: return None`; otherwise one
POST exchange to `endpoint/method`, with any exception or non-2xx status
caught and turned into `None`.  The second component is the trace of
transport exchanges performed. -/
def http_send_request (net : Net) (st : HTTPState) (method : String)
    (params : Params) : Option Resp × List Event :=
  if !st.has_session || !st.is_connected then (none, [])
  else (net method params, [Event.exchange method])

/-- `HTTPConnector.connect` (lines 108-129): unconditionally constructs a
fresh `requests.Session`, then sets `self._is_connected` to the result of a
`health_check` probe issued through `send_request` on the current state, and
returns that flag.  Returns (result, new state, event trace). -/
def http_connect (net : Net) (st : HTTPState) :
    Bool × HTTPState × List Event :=
  -- self._session = requests.Session()  (headers updated, no further effect)
  let st1 : HTTPState := { st with has_session := true }
  -- self._is_connected = self.health_check()
  let probe := http_send_request net st1 "health_check" []
  let ok := resp_is_healthy probe.1
  (ok, { st1 with is_connected := ok },
    Event.openSession :: Event.probe :: probe.2)

/-- `HTTPConnector.disconnect` (lines 131-136). -/
def http_disconnect (_st : HTTPState) : HTTPState :=
  { is_connected := false, has_session := false }

/-! ## WebSocket connector (connector.py lines 161-252) -/

/-- Mutable state of a `WebSocketConnector`: `self._is_connected` and whether
`self._websocket` is set. -/
structure WSState where
  is_connected : Bool
  has_websocket : Bool
  deriving DecidableEq

/-- `WebSocketConnector.connect` (lines 168-219): unconditionally constructs
a new `WebSocketApp` and starts it on a background thread, then polls
`self._is_connected` once per second for up to `timeout` iterations.  The
background thread's `on_open` callback sets the flag when the socket opens;
the parameter `opens` abstracts whether that happens within the polling
window.  A zero `timeout` skips the polling loop entirely. -/
def ws_connect (opens : Bool) (timeout : Nat) (st : WSState) :
    Bool × WSState × List Event :=
  let st1 : WSState := { st with has_websocket := true }
  let st2 : WSState := if opens then { st1 with is_connected := true } else st1
  if timeout = 0 then (false, st2, [Event.wsOpenSocket])
  else (st2.is_connected, st2, [Event.wsOpenSocket])

/-- The body of the `try` block of `WebSocketConnector.send_request`
(lines 236-248).  Its first statement is

  `request = {'method': method, 'params': params, 'id': id(request)}`

Because `request` is assigned in the function, it is a local name, and the
right-hand side evaluates `id(request)` before the assignment has happened:
the block raises `UnboundLocalError` before any frame is written to the
socket, so it can never reach `self._websocket.send(...)` or
`return {'status': 'sent'}`. -/
def ws_try_body (_method : String) (_params : Params) :
    PyResult (Resp × List Event) :=
  PyResult.exn "UnboundLocalError: cannot access local variable 'request'"

/-- `WebSocketConnector.send_request` (lines 228-252): guard
`if not self._websocket or not self._is_connected: return None`; otherwise
run the `try` block, catching any exception and returning `None`. -/
def ws_send_request (st : WSState) (method : String) (params : Params) :
    Option Resp × List Event :=
  if !st.has_websocket || !st.is_connected then (none, [])
  else
    match ws_try_body method params with
    | PyResult.ok (r, evs) => (some r, evs)
    | PyResult.exn _ => (none, [])

/-! ## Server dispatcher (server.py) -/

/-- Python `s.split(' ', 1)` on the list of characters: split at the first
space only; `none` models the `ValueError` raised by the two-variable
unpacking when the string contains no space. -/
def split1 : List Char → Option (List Char × List Char)
  | [] => none
  | c :: rest =>
    if c = ' ' then some ([], rest)
    else (split1 rest).map (fun p => (c :: p.1, p.2))

/-- `auth_header.split(' ', 1)` unpacked into `(scheme, token)`, `none` for
the caught `ValueError`. -/
def splitSchemeToken (s : String) : Option (String × String) :=
  (split1 s.data).map (fun p => (String.mk p.1, String.mk p.2))

/-- `MCPServer._authenticate` (server.py lines 151-164).  `auth_token` is the
server credential (`none` for absent; Python truthiness also treats the
empty string as absent), `auth_header` the request's `Authorization` header
(`none` when missing; the empty string is falsy and treated as missing).
The scheme is compared lowercased against `'bearer'`; the token is compared
with `==` against the credential. -/
def authenticate (auth_token : Option String) (auth_header : Option String) :
    Bool :=
  match auth_token with
  | none => true
  | some tok =>
    if tok = "" then true          -- `if not self.auth_token: return True`
    else
      match auth_header with
      | none => false
      | some h =>
        if h = "" then false       -- `if not auth_header: return False`
        else
          match splitSchemeToken h with
          | none => false          -- ValueError on unpacking
          | some (scheme, token) =>
            scheme.toLower = "bearer" && token = tok

/-- A registered model object, classified the way the `predict` route
inspects it: `hasattr(model, 'predict')` takes precedence, otherwise
`hasattr(model, '__call__')`, otherwise neither.  Invocation may raise. -/
inductive Model where
  | withPredict (f : JValue → PyResult JValue)
  | callableOnly (f : JValue → PyResult JValue)
  | notInvokable

/-- The model registry `self._models`: a name-keyed mapping. -/
abbrev ModelRegistry := List (String × Model)

/-- A registered handler: `params -> result`, may raise. -/
abbrev Handler := JValue → PyResult JValue

/-- The handler registry `self._handlers`. -/
abbrev HandlerRegistry := List (String × Handler)

/-- An inbound HTTP request as the routes see it: the `Authorization` header
and the parsed JSON body (assumed to be a JSON object). -/
structure Request where
  auth_header : Option String
  body : Params

/-- An HTTP response: status code and JSON body. -/
structure HttpResp where
  status : Nat
  body : Params

/-- The `hasattr` dispatch of the `predict` route (server.py lines 110-115):
`some` runs the resolved invocation, `none` means the object supports
neither `predict` nor `__call__`. -/
def invoke_model : Model → JValue → Option (PyResult JValue)
  | Model.withPredict f, x => some (f x)
  | Model.callableOnly f, x => some (f x)
  | Model.notInvokable, _ => none

/-- The `/predict/<model_name>` route (server.py lines 93-125): authenticate
(401), registry lookup (404), require `input` in the body (400), dispatch on
the model's capabilities (400 when it has neither `predict` nor `__call__`),
catch an exception from the invocation (500 with the message), else wrap the
result with the model name and a timestamp (`now` models `time.time()`). -/
def predict_route (auth_token : Option String) (models : ModelRegistry)
    (now : Int) (model_name : String) (req : Request) : HttpResp :=
  if !authenticate auth_token req.auth_header then
    ⟨401, [("error", JValue.str "Unauthorized")]⟩
  else
    match dictGet models model_name with
    | none =>
      ⟨404, [("error", JValue.str ("Model " ++ model_name ++ " not found"))]⟩
    | some model =>
      match dictGet req.body "input" with
      | none => ⟨400, [("error", JValue.str "Missing input data")]⟩
      | some input =>
        match invoke_model model input with
        | none =>
          ⟨400, [("error", JValue.str "Model does not support prediction")]⟩
        | some (PyResult.ok r) =>
          ⟨200, [("model", JValue.str model_name), ("prediction", r),
                 ("timestamp", JValue.num now)]⟩
        | some (PyResult.exn msg) => ⟨500, [("error", JValue.str msg)]⟩

/-- The `/execute/<handler_name>` route (server.py lines 127-149):
authenticate (401), registry lookup (404), invoke the handler on
`data.get('params', {})`, catching an exception (500 with the message), else
wrap the result with the handler name and a timestamp. -/
def execute_route (auth_token : Option String) (handlers : HandlerRegistry)
    (now : Int) (handler_name : String) (req : Request) : HttpResp :=
  if !authenticate auth_token req.auth_header then
    ⟨401, [("error", JValue.str "Unauthorized")]⟩
  else
    match dictGet handlers handler_name with
    | none =>
      ⟨404,
       [("error", JValue.str ("Handler " ++ handler_name ++ " not found"))]⟩
    | some handler =>
      let p := (dictGet req.body "params").getD (JValue.obj [])
      match handler p with
      | PyResult.ok r =>
        ⟨200, [("handler", JValue.str handler_name), ("result", r),
               ("timestamp", JValue.num now)]⟩
      | PyResult.exn msg => ⟨500, [("error", JValue.str msg)]⟩

/-! ## Client (client.py) -/

/-- `MCPClient.predict` (client.py lines 119-143): `None` when the client's
`_connected` flag is down, otherwise one `send_request` to
`predict/<model_name>` with `{'input': input_data, **kwargs}`.  The
connector exchange is abstracted by the oracle `send`. -/
def client_predict (send : Net) (connected : Bool) (model_name : String)
    (input_data : JValue) (kwargs : Params) : Option Resp :=
  if !connected then none
  else send ("predict/" ++ model_name) (("input", input_data) :: kwargs)

/-- `MCPClient.batch_predict` (client.py lines 165-184): `results = []`, one
`predict` per input in order, each result appended (a failed prediction
appends `None`). -/
def batch_predict (send : Net) (connected : Bool) (model_name : String)
    (input_batch : List JValue) (kwargs : Params) : List (Option Resp) :=
  input_batch.map (fun input_data =>
    client_predict send connected model_name input_data kwargs)

/-- `MCPClient.stream_predictions` (client.py lines 186-203), denotationally:
the generator pulls one input at a time, performs one `predict` per pulled
input, and yields the result only when it is not `None`. -/
def stream_predictions (send : Net) (connected : Bool) (model_name : String)
    (kwargs : Params) : List JValue → List Resp
  | [] => []
  | input_data :: rest =>
    match client_predict send connected model_name input_data kwargs with
    | some r => r :: stream_predictions send connected model_name kwargs rest
    | none => stream_predictions send connected model_name kwargs rest

/-- A remote endpoint that answers every exchange with
`{"status": "healthy"}`, used to exercise the connect path concretely. -/
def netHealthy : Net := fun _ _ => some [("status", JValue.str "healthy")]

/-! ## Helper lemmas -/

theorem split1_append (a b : List Char) (h : ' ' ∉ a) :
    split1 (a ++ ' ' :: b) = some (a, b) := by
  induction a with
  | nil => simp [split1]
  | cons c cs ih =>
    have hc : ¬ c = ' ' := fun e => h (e ▸ List.mem_cons_self c cs)
    have hcs : ' ' ∉ cs := fun m => h (List.mem_cons_of_mem _ m)
    simp [split1, hc, ih hcs]

theorem split1_no_space (l : List Char) (h : ' ' ∉ l) : split1 l = none := by
  induction l with
  | nil => rfl
  | cons c cs ih =>
    have hc : ¬ c = ' ' := fun e => h (e ▸ List.mem_cons_self c cs)
    have hcs : ' ' ∉ cs := fun m => h (List.mem_cons_of_mem _ m)
    simp [split1, hc, ih hcs]

theorem data_scheme_token (scheme token : String) :
    (scheme ++ " " ++ token).data = scheme.data ++ ' ' :: token.data := by
  simp [String.data_append]

theorem splitSchemeToken_append (scheme token : String)
    (h : ' ' ∉ scheme.data) :
    splitSchemeToken (scheme ++ " " ++ token) = some (scheme, token) := by
  unfold splitSchemeToken
  rw [data_scheme_token, split1_append _ _ h]
  rfl

theorem authenticate_header_eq (cred scheme token : String) (hc : cred ≠ "")
    (hs : ' ' ∉ scheme.data) :
    authenticate (some cred) (some (scheme ++ " " ++ token)) =
      (scheme.toLower = "bearer" && token = cred) := by
  have hne : scheme ++ " " ++ token ≠ "" := by
    intro e
    have : (scheme ++ " " ++ token).data = ("" : String).data := by rw [e]
    rw [data_scheme_token] at this
    exact absurd this (by simp)
  unfold authenticate
  simp only [splitSchemeToken_append _ _ hs, if_neg hc, if_neg hne]

/-! ## Claim theorems -/

/-- C1: while `WebSocketConnector` is Connected, `send_request` is claimed
to attach a unique correlation id, record the request in a pending table and
block until the correlated reply's payload (or a timeout error) arrives.
The code does none of this: building the request dict evaluates
`id(request)` while `request` is an unbound local, the raised
`UnboundLocalError` is caught, and the call returns `None` without writing a
frame, recording anything, or ever producing a reply payload — and even the
intended fall-through would have answered `{'status': 'sent'}` immediately
with a memory-address id. -/
theorem ws_send_request_never_returns_reply (method : String)
    (params : Params) :
    ws_send_request ⟨true, true⟩ method params = (none, []) := rfl

/-- C2: a second `connect()` on an already-Connected connector is claimed to
return true without re-probing and without opening a second transport
resource.  Evaluating the code from the Connected state shows the opposite:
the HTTP variant constructs a fresh `requests.Session`, runs the health
probe again (one more exchange), and the WebSocket variant constructs a
second `WebSocketApp` socket thread. -/
theorem connect_when_connected_reopens_and_reprobes :
    http_connect netHealthy ⟨true, true⟩ =
      (true, ⟨true, true⟩,
       [Event.openSession, Event.probe, Event.exchange "health_check"]) ∧
    ws_connect true 30 ⟨true, true⟩ =
      (true, ⟨true, true⟩, [Event.wsOpenSocket]) :=
  ⟨rfl, rfl⟩

/-- C3: with no configured credential every request passes authentication;
with a configured (non-empty) credential a request is authorized exactly
when its `Authorization` header splits into `<scheme> <token>` with the
scheme matching `Bearer` (compared case-insensitively, per the HTTP
convention — see C9) and the token equal to the credential byte-for-byte;
a missing header, a header with no scheme/token separator, or a token
mismatch yields a 401 response before any registry lookup (the 401 is
independent of the registries). -/
theorem authenticate_spec (cred : String) (hcred : cred ≠ "")
    (models : ModelRegistry) (handlers : HandlerRegistry) (now : Int)
    (name : String) (body : Params) (hdr : Option String) :
    (authenticate none hdr = true)
    ∧ (authenticate (some cred) none = false)
    ∧ (∀ scheme token : String, ' ' ∉ scheme.data →
        (authenticate (some cred) (some (scheme ++ " " ++ token)) = true ↔
          scheme.toLower = "bearer" ∧ token = cred))
    ∧ (∀ h : String, ' ' ∉ h.data →
        authenticate (some cred) (some h) = false)
    ∧ (authenticate (some cred) hdr = false →
        predict_route (some cred) models now name ⟨hdr, body⟩ =
          ⟨401, [("error", JValue.str "Unauthorized")]⟩
        ∧ execute_route (some cred) handlers now name ⟨hdr, body⟩ =
          ⟨401, [("error", JValue.str "Unauthorized")]⟩) := by
  refine ⟨rfl, ?_, ?_, ?_, ?_⟩
  · simp [authenticate, hcred]
  · intro scheme token hs
    rw [authenticate_header_eq cred scheme token hcred hs]
    simp
  · intro h hh
    by_cases he : h = ""
    · simp [authenticate, hcred, he]
    · simp [authenticate, hcred, he, splitSchemeToken,
        split1_no_space h.data hh]
  · intro hfail
    constructor <;> simp [predict_route, execute_route, hfail]

/-- Closed instance of `authenticate_spec` at credential `"secret"`. -/
theorem authenticate_spec_witness :
    ("secret" : String) ≠ "" ∧
    ((authenticate none (some "x") = true)
    ∧ (authenticate (some "secret") none = false)
    ∧ (∀ scheme token : String, ' ' ∉ scheme.data →
        (authenticate (some "secret") (some (scheme ++ " " ++ token)) = true ↔
          scheme.toLower = "bearer" ∧ token = "secret"))
    ∧ (∀ h : String, ' ' ∉ h.data →
        authenticate (some "secret") (some h) = false)
    ∧ (authenticate (some "secret") (some "x") = false →
        predict_route (some "secret") [] 0 "m" ⟨some "x", []⟩ =
          ⟨401, [("error", JValue.str "Unauthorized")]⟩
        ∧ execute_route (some "secret") [] 0 "m" ⟨some "x", []⟩ =
          ⟨401, [("error", JValue.str "Unauthorized")]⟩)) :=
  ⟨by decide, authenticate_spec "secret" (by decide) [] [] 0 "m" [] (some "x")⟩

/-- C4: `batch_predict` returns a list of exactly the input batch's length
whose `i`-th element is the result of `predict` on the `i`-th input — failed
predictions stay in place as `none`, nothing is dropped, reordered, or
aborted. -/
theorem batch_predict_spec (send : Net) (connected : Bool)
    (model_name : String) (input_batch : List JValue) (kwargs : Params) :
    (batch_predict send connected model_name input_batch kwargs).length =
      input_batch.length
    ∧ ∀ i : Nat,
        (batch_predict send connected model_name input_batch kwargs)[i]? =
          (input_batch[i]?).map
            (fun x => client_predict send connected model_name x kwargs) := by
  constructor
  · simp [batch_predict]
  · intro i
    simp [batch_predict]

/-- C5: when a connector's state is not Connected, `send_request` returns
the absent result immediately and performs no transport exchange (empty
event trace), for both the HTTP and the WebSocket variant. -/
theorem send_request_not_connected (net : Net) (hst : HTTPState)
    (wst : WSState) (method : String) (params : Params)
    (h1 : hst.is_connected = false) (h2 : wst.is_connected = false) :
    http_send_request net hst method params = (none, []) ∧
    ws_send_request wst method params = (none, []) := by
  constructor
  · simp [http_send_request, h1]
  · simp [ws_send_request, h2]

/-- Closed instance of `send_request_not_connected` on disconnected
connectors that still hold a session / socket object. -/
theorem send_request_not_connected_witness :
    (HTTPState.mk false true).is_connected = false ∧
    (WSState.mk false true).is_connected = false ∧
    (http_send_request netHealthy ⟨false, true⟩ "models" [] = (none, []) ∧
     ws_send_request ⟨false, true⟩ "models" [] = (none, [])) :=
  ⟨rfl, rfl, send_request_not_connected netHealthy ⟨false, true⟩
    ⟨false, true⟩ "models" [] rfl rfl⟩

/-- C6: `health_check` returns true exactly when `send_request` applied to
`("health_check", {})` returns (without raising) a response whose `status`
field is the string `"healthy"`; every error response, absent response or
raised exception yields `false` — the function is total, so nothing
propagates to the caller. -/
theorem health_check_spec (send : String → Params → SendOutcome) :
    health_check send = true ↔
      ∃ r, send "health_check" [] = SendOutcome.ok (some r) ∧
        dictGet r "status" = some (JValue.str "healthy") := by
  unfold health_check
  cases hs : send "health_check" [] with
  | raised msg => simp
  | ok r =>
    cases r with
    | none => simp [resp_is_healthy]
    | some resp =>
      simp only [SendOutcome.ok.injEq, Option.some.injEq, exists_eq_left']
      unfold resp_is_healthy
      cases hv : dictGet resp "status" with
      | none => simp [hv]
      | some v => cases v <;> simp [hv]

/-- C7: when a registered model's `predict` or a registered handler raises,
the route catches the exception and answers with status 500 and a body
carrying the original exception message; the route is a total function, so
the request always receives this well-formed reply. -/
theorem dispatcher_catches_exceptions
    (auth_token : Option String) (hdr : Option String)
    (models : ModelRegistry) (handlers : HandlerRegistry) (now : Int)
    (model_name handler_name : String)
    (f : JValue → PyResult JValue) (handler : Handler)
    (input pv : JValue) (msgF msgH : String) (bodyP bodyH : Params)
    (hauth : authenticate auth_token hdr = true)
    (hm : dictGet models model_name = some (Model.withPredict f))
    (hb : dictGet bodyP "input" = some input)
    (hf : f input = PyResult.exn msgF)
    (hh : dictGet handlers handler_name = some handler)
    (hph : dictGet bodyH "params" = some pv)
    (hhr : handler pv = PyResult.exn msgH) :
    predict_route auth_token models now model_name ⟨hdr, bodyP⟩ =
      ⟨500, [("error", JValue.str msgF)]⟩ ∧
    execute_route auth_token handlers now handler_name ⟨hdr, bodyH⟩ =
      ⟨500, [("error", JValue.str msgH)]⟩ := by
  constructor
  · simp [predict_route, hauth, hm, hb, invoke_model, hf]
  · simp [execute_route, hauth, hh, hph, hhr]

/-- Closed instance of `dispatcher_catches_exceptions`: a model raising
`"boom"` and a handler raising `"bang"` both turn into 500 replies carrying
those messages. -/
theorem dispatcher_catches_exceptions_witness :
    authenticate none none = true ∧
    (predict_route none
        [("m", Model.withPredict (fun _ => PyResult.exn "boom"))] 0 "m"
        ⟨none, [("input", JValue.null)]⟩ =
      ⟨500, [("error", JValue.str "boom")]⟩ ∧
    execute_route none [("h", fun _ => PyResult.exn "bang")] 0 "h"
        ⟨none, [("params", JValue.null)]⟩ =
      ⟨500, [("error", JValue.str "bang")]⟩) :=
  ⟨rfl, dispatcher_catches_exceptions none none
    [("m", Model.withPredict (fun _ => PyResult.exn "boom"))]
    [("h", fun _ => PyResult.exn "bang")] 0 "m" "h"
    (fun _ => PyResult.exn "boom") (fun _ => PyResult.exn "bang")
    JValue.null JValue.null "boom" "bang"
    [("input", JValue.null)] [("params", JValue.null)]
    rfl rfl rfl rfl rfl rfl rfl⟩

/-- C8: the stream of predictions is exactly the in-order sequence of
successful (`some`) results of one `predict` per input — failed elements are
skipped, not emitted — and its length is bounded by the input length. -/
theorem stream_predictions_spec (send : Net) (connected : Bool)
    (model_name : String) (kwargs : Params) (input_stream : List JValue) :
    stream_predictions send connected model_name kwargs input_stream =
      input_stream.filterMap
        (fun x => client_predict send connected model_name x kwargs)
    ∧ (stream_predictions send connected model_name kwargs
        input_stream).length ≤ input_stream.length := by
  have h : ∀ l : List JValue,
      stream_predictions send connected model_name kwargs l =
        l.filterMap
          (fun x => client_predict send connected model_name x kwargs) := by
    intro l
    induction l with
    | nil => rfl
    | cons x rest ih =>
      rw [stream_predictions, List.filterMap_cons]
      cases hx : client_predict send connected model_name x kwargs <;>
        simp [ih]
  refine ⟨h input_stream, ?_⟩
  rw [h input_stream]
  exact List.length_filterMap_le _ _

/-- C9: with a configured credential, a header `<scheme> <token>` passes
authentication exactly when the scheme lowercased equals `"bearer"` (so
`bearer`, `Bearer`, `BEARER` are all accepted) and the token equals the
credential exactly — the token comparison itself is case-sensitive. -/
theorem auth_scheme_case_insensitive (cred scheme token : String)
    (hcred : cred ≠ "") (hs : ' ' ∉ scheme.data) :
    authenticate (some cred) (some (scheme ++ " " ++ token)) = true ↔
      scheme.toLower = "bearer" ∧ token = cred := by
  rw [authenticate_header_eq cred scheme token hcred hs]
  simp

/-- Closed instance of `auth_scheme_case_insensitive`: the uppercased scheme
`BEARER` with the exact token is accepted. -/
theorem auth_scheme_case_insensitive_witness :
    ("secret" : String) ≠ "" ∧ ' ' ∉ ("BEARER" : String).data ∧
    (authenticate (some "secret") (some ("BEARER" ++ " " ++ "secret")) =
        true ↔
      ("BEARER" : String).toLower = "bearer" ∧ "secret" = "secret") :=
  ⟨by decide, by decide,
   auth_scheme_case_insensitive "secret" "BEARER" "secret" (by decide)
     (by decide)⟩

/-- C10: a registered object without a `predict` attribute is invoked
through its `__call__` fallback on the request's input, and an object with
neither capability yields status 400 with body
`{'error': 'Model does not support prediction'}` — not a 404 NotFound and
not a 500 remote-execution error. -/
theorem predict_route_fallbacks
    (auth_token : Option String) (hdr : Option String)
    (models : ModelRegistry) (now : Int) (mc mn : String)
    (f : JValue → PyResult JValue) (input : JValue) (body : Params)
    (hauth : authenticate auth_token hdr = true)
    (hb : dictGet body "input" = some input)
    (hmc : dictGet models mc = some (Model.callableOnly f))
    (hmn : dictGet models mn = some Model.notInvokable) :
    predict_route auth_token models now mc ⟨hdr, body⟩ =
      (match f input with
       | PyResult.ok r =>
         ⟨200, [("model", JValue.str mc), ("prediction", r),
                ("timestamp", JValue.num now)]⟩
       | PyResult.exn msg => ⟨500, [("error", JValue.str msg)]⟩) ∧
    predict_route auth_token models now mn ⟨hdr, body⟩ =
      ⟨400, [("error", JValue.str "Model does not support prediction")]⟩ := by
  constructor
  · cases hx : f input <;>
      simp [predict_route, hauth, hmc, hb, invoke_model, hx]
  · simp [predict_route, hauth, hmn, hb, invoke_model]

/-- Closed instance of `predict_route_fallbacks`: an echo callable without a
`predict` attribute is invoked, and a plain object yields the 400 reply. -/
theorem predict_route_fallbacks_witness :
    authenticate none none = true ∧
    (predict_route none
        [("c", Model.callableOnly (fun x => PyResult.ok x)),
         ("p", Model.notInvokable)] 0 "c" ⟨none, [("input", JValue.null)]⟩ =
      ⟨200, [("model", JValue.str "c"), ("prediction", JValue.null),
             ("timestamp", JValue.num 0)]⟩ ∧
    predict_route none
        [("c", Model.callableOnly (fun x => PyResult.ok x)),
         ("p", Model.notInvokable)] 0 "p" ⟨none, [("input", JValue.null)]⟩ =
      ⟨400, [("error", JValue.str "Model does not support prediction")]⟩) :=
  ⟨rfl, predict_route_fallbacks none none
    [("c", Model.callableOnly (fun x => PyResult.ok x)),
     ("p", Model.notInvokable)] 0 "c" "p" (fun x => PyResult.ok x)
    JValue.null [("input", JValue.null)] rfl rfl rfl rfl⟩

end MCP
